import Mathlib

/-
Verification of the session-state contract of the adventure-engine server
(src/adventure_engine.py). The Python module keeps a global dict
ADVENTURE_SESSIONS mapping a user id to a session record with fields
story_log and inventory, and exposes the tool operations start_adventure,
make_choice, show_status and reset_adventure. The narrative backend call
(get_narrative_update) is external; here an operation receives the parsed
backend result as an `Option NarrativeData` argument (`none` models a
failure of the backend call or of JSON parsing), and each result records
the (prior_log, action) pair that would be sent to the backend, so that
claims about what is sent, and whether a call happens at all, are statable.
-/

set_option autoImplicit false

namespace AdventureEngine

/-- The single-quote character, written via its code point. -/
def apos : Char := Char.ofNat 39

/-- The double-quote character, written via its code point. -/
def dquote : Char := Char.ofNat 34

/-- One-character string holding a single quote. -/
def apostr : String := String.mk [apos]

/-! ## Scene Image Adapter (get_scene_image)

The Python code builds the URL with `urllib.parse.quote_plus(prompt)`
interpolated into a fixed template. `quote_plus` works on the UTF-8 bytes
of the prompt: unreserved bytes (ALPHA / DIGIT / `_` / `.` / `-` / `~`)
pass through, a space becomes `+`, and every other byte becomes `%XX`
with uppercase hex digits. -/

/-- UTF-8 encoding of one code point, as a list of byte values. -/
def utf8Bytes (c : Nat) : List Nat :=
  if c < 128 then [c]
  else if c < 2048 then [192 + c / 64, 128 + c % 64]
  else if c < 65536 then [224 + c / 4096, 128 + (c / 64) % 64, 128 + c % 64]
  else [240 + c / 262144, 128 + (c / 4096) % 64, 128 + (c / 64) % 64, 128 + c % 64]

/-- The UTF-8 byte sequence of a string. -/
def strBytes (s : String) : List Nat :=
  (s.data.map (fun c => utf8Bytes c.toNat)).flatten

/-- Uppercase hexadecimal digit for a value below 16. -/
def hexDigit (n : Nat) : Char :=
  if n < 10 then Char.ofNat (48 + n) else Char.ofNat (55 + n)

/-- Bytes `urllib.parse.quote_plus` never escapes (its `always_safe` set). -/
def isAlwaysSafe (b : Nat) : Bool :=
  (65 ≤ b && b ≤ 90) || (97 ≤ b && b ≤ 122) || (48 ≤ b && b ≤ 57) ||
    b == 95 || b == 46 || b == 45 || b == 126

/-- Encoding of one byte under `urllib.parse.quote_plus`. -/
def quotePlusByte (b : Nat) : String :=
  if isAlwaysSafe b then (Char.ofNat b).toString
  else if b == 32 then "+"
  else "%" ++ (hexDigit (b / 16)).toString ++ (hexDigit (b % 16)).toString

/-- Model of `urllib.parse.quote_plus` on a whole string. -/
def quote_plus (s : String) : String :=
  String.join ((strBytes s).map quotePlusByte)

/-- Model of `get_scene_image`: the fixed placeholder template with the
quoted prompt appended as the `text` query parameter. -/
def get_scene_image (prompt : String) : String :=
  "https://via.placeholder.com/1024x1024.png?text=" ++ quote_plus prompt

/-- The part of a URL after the first question mark. -/
def queryPortion (url : String) : String :=
  String.mk ((url.data.dropWhile (fun c => c ≠ '?')).drop 1)

/-! ## Python str() of a list of strings

`start_adventure` and `make_choice` interpolate the whole `choices` list
into the response (`f"1. {narrative_data['choices']}"`), which renders
Python's `repr` of the list: elements quoted and escaped, joined by
`", "` inside brackets. -/

/-- Lowercase hexadecimal digit for a value below 16 (Python uses
lowercase in `\x` escapes). -/
def hexLower (n : Nat) : Char :=
  if n < 10 then Char.ofNat (48 + n) else Char.ofNat (87 + n)

/-- How Python `repr` renders one character inside a string quoted with
`q`: backslash and the quote character are backslash-escaped, newline,
carriage return and tab use their mnemonic escapes, other control bytes
use a `\x` escape, and every other character stands for itself. -/
def pyEscapeChar (q : Char) (ch : Char) : List Char :=
  if ch = '\\' then ['\\', '\\']
  else if ch = q then ['\\', q]
  else if ch = Char.ofNat 10 then ['\\', 'n']
  else if ch = Char.ofNat 13 then ['\\', 'r']
  else if ch = Char.ofNat 9 then ['\\', 't']
  else if ch.toNat < 32 || ch.toNat == 127 then
    ['\\', 'x', hexLower (ch.toNat / 16), hexLower (ch.toNat % 16)]
  else [ch]

/-- Python `repr` of a string: single-quoted, unless the string contains
a single quote and no double quote, in which case double-quoted. -/
def pyReprStr (s : String) : String :=
  let q := if s.data.contains apos && !(s.data.contains dquote) then dquote else apos
  String.mk ([q] ++ (s.data.map (pyEscapeChar q)).flatten ++ [q])

/-- Join strings with `", "`, as Python does between list elements and as
`", ".join(...)` does in `show_status`. -/
def joinComma : List String → String
  | [] => ""
  | [s] => s
  | s :: rest => s ++ ", " ++ joinComma rest

/-- Python `str`/`repr` of a list of strings. -/
def pyReprStrList (l : List String) : String :=
  "[" ++ joinComma (l.map pyReprStr) ++ "]"

/-! ## Data model -/

/-- The parsed JSON object returned by `get_narrative_update`: the four
keys the prompt demands. The code does not validate shapes, so `choices`
is an arbitrary list here, not a triple. -/
structure NarrativeData where
  narrative : String
  choices : List String
  image_prompt : String
  new_inventory : List String
deriving DecidableEq, Repr

/-- One value of the ADVENTURE_SESSIONS dict. -/
structure Session where
  story_log : List String
  inventory : List String
deriving DecidableEq, Repr

/-- The ADVENTURE_SESSIONS dict, as an association list keyed by
`puch_user_id`. -/
abbrev Store := List (String × Session)

/-- Dict membership / read: the first binding for the key. -/
def lookupSession : Store → String → Option Session
  | [], _ => none
  | (k, v) :: rest, u => if k = u then some v else lookupSession rest u

/-- Dict write `ADVENTURE_SESSIONS[u] = s`: replace the binding if the
key is present, append it otherwise. -/
def insertSession : Store → String → Session → Store
  | [], u, s => [(u, s)]
  | (k, v) :: rest, u, s =>
    if k = u then (k, s) :: rest else (k, v) :: insertSession rest u s

/-- Dict delete `del ADVENTURE_SESSIONS[u]`: drop every binding for the
key. -/
def eraseSession (store : Store) (u : String) : Store :=
  store.filter (fun kv => kv.1 ≠ u)

/-- How a tool call can fail (uncaught Python exception). -/
inductive CallError where
  | backendFailure
  | indexError
deriving DecidableEq, Repr

instance : DecidableEq (Except CallError String) := fun a b =>
  match a, b with
  | Except.ok x, Except.ok y =>
    if h : x = y then isTrue (by rw [h])
    else isFalse (fun hh => h (Except.ok.inj hh))
  | Except.error x, Except.error y =>
    if h : x = y then isTrue (by rw [h])
    else isFalse (fun hh => h (Except.error.inj hh))
  | Except.ok _, Except.error _ => isFalse (fun hh => Except.noConfusion hh)
  | Except.error _, Except.ok _ => isFalse (fun hh => Except.noConfusion hh)

/-- Outcome of one tool call: the store afterwards, the reply or the
uncaught exception, and the `(story_log, user_choice)` pair sent to
`get_narrative_update`, `none` when no backend call happens. -/
structure CallResult where
  store : Store
  reply : Except CallError String
  backendRequest : Option (List String × String)
deriving DecidableEq, Repr

/-- Whether an operation returned normally. -/
def replyOk : Except CallError String → Bool
  | Except.ok _ => true
  | Except.error _ => false

/-- Python list indexing `xs[i]`: `IndexError` when out of range. -/
def pyIndex (xs : List String) (i : Nat) : Except CallError String :=
  match xs[i]? with
  | some x => Except.ok x
  | none => Except.error CallError.indexError

/-- Python `xs[-1]`: last element, `IndexError` on an empty list. -/
def pyLast (xs : List String) : Except CallError String :=
  match xs.getLast? with
  | some x => Except.ok x
  | none => Except.error CallError.indexError

/-! ## Tool operations -/

/-- The seed action `start_adventure` sends to the backend. -/
def initial_prompt : String :=
  "Start a new fantasy adventure for me in a mysterious, ancient forest."

/-- The f-string built by `start_adventure` on the fresh-session path.
Indexing `choices[1]` or `choices[2]` can raise. -/
def startResponseStr (nd : NarrativeData) (image_url : String) :
    Except CallError String :=
  match pyIndex nd.choices 1, pyIndex nd.choices 2 with
  | Except.ok c1, Except.ok c2 =>
    Except.ok ("A new adventure begins!\n\n" ++ nd.narrative ++
      "\n\nImage: " ++ image_url ++
      "\n\nWhat do you do?\n1. " ++ pyReprStrList nd.choices ++
      "\n2. " ++ c1 ++ "\n3. " ++ c2 ++ "\n4. Or, type your own action...")
  | Except.error e, _ => Except.error e
  | _, Except.error e => Except.error e

/-- The f-string built by `make_choice`; identical to the start response
except for the missing framing line. -/
def choiceResponseStr (nd : NarrativeData) (image_url : String) :
    Except CallError String :=
  match pyIndex nd.choices 1, pyIndex nd.choices 2 with
  | Except.ok c1, Except.ok c2 =>
    Except.ok (nd.narrative ++
      "\n\nImage: " ++ image_url ++
      "\n\nWhat do you do?\n1. " ++ pyReprStrList nd.choices ++
      "\n2. " ++ c1 ++ "\n3. " ++ c2 ++ "\n4. Or, type your own action...")
  | Except.error e, _ => Except.error e
  | _, Except.error e => Except.error e

/-- Model of the `start_adventure` tool. With an existing session it
returns the last log entry without touching the backend; otherwise it
sends the seed action with an empty prior log, writes the new session,
and only then formats the response (which may still raise). -/
def start_adventure (store : Store) (puch_user_id : String)
    (backendResult : Option NarrativeData) : CallResult :=
  match lookupSession store puch_user_id with
  | some sess =>
    match pyLast sess.story_log with
    | Except.ok last_log =>
      ⟨store,
       Except.ok ("You are already in an adventure! Your last update was: "
         ++ last_log),
       none⟩
    | Except.error e => ⟨store, Except.error e, none⟩
  | none =>
    let req := some (([] : List String), initial_prompt)
    match backendResult with
    | none => ⟨store, Except.error CallError.backendFailure, req⟩
    | some nd =>
      let image_url := get_scene_image nd.image_prompt
      let store1 := insertSession store puch_user_id
        ⟨[nd.narrative], nd.new_inventory⟩
      match startResponseStr nd image_url with
      | Except.ok s => ⟨store1, Except.ok s, req⟩
      | Except.error e => ⟨store1, Except.error e, req⟩

/-- The no-session reply of `make_choice` and `show_status` (the same
literal appears in both Python functions). -/
def make_choice (store : Store) (puch_user_id : String) (choice : String)
    (backendResult : Option NarrativeData) : CallResult :=
  match lookupSession store puch_user_id with
  | none =>
    ⟨store,
     Except.ok ("You haven" ++ apostr ++ "t started an adventure yet! Use the "
       ++ apostr ++ "start_adventure" ++ apostr ++ " tool first."),
     none⟩
  | some current_session =>
    let req := some (current_session.story_log, choice)
    match backendResult with
    | none => ⟨store, Except.error CallError.backendFailure, req⟩
    | some nd =>
      let image_url := get_scene_image nd.image_prompt
      let store1 := insertSession store puch_user_id
        ⟨current_session.story_log ++
           ["Player chose: " ++ choice, nd.narrative],
         nd.new_inventory⟩
      match choiceResponseStr nd image_url with
      | Except.ok s => ⟨store1, Except.ok s, req⟩
      | Except.error e => ⟨store1, Except.error e, req⟩

/-- Model of the `show_status` tool: a pure read, returned with the
unchanged store to make the absence of mutation explicit. -/
def show_status (store : Store) (puch_user_id : String) : Store × String :=
  match lookupSession store puch_user_id with
  | none =>
    (store,
     "You haven" ++ apostr ++ "t started an adventure yet! Use the "
       ++ apostr ++ "start_adventure" ++ apostr ++ " tool first.")
  | some sess =>
    if sess.inventory.isEmpty then (store, "Your inventory is empty.")
    else (store, "Your inventory contains: " ++ joinComma sess.inventory)

/-- Model of the `reset_adventure` tool. -/
def reset_adventure (store : Store) (puch_user_id : String) :
    Store × String :=
  if (lookupSession store puch_user_id).isSome then
    (eraseSession store puch_user_id,
     "Your adventure has been reset. You can now start a new one by using the "
       ++ apostr ++ "start_adventure" ++ apostr ++ " tool.")
  else
    (store, "You do not have an active adventure to reset.")

/-! ## Concrete fixtures (used by counterexamples and witnesses) -/

/-- A well-formed backend result, the one of the spec's first end-to-end
scenario. -/
def ndGood : NarrativeData :=
  ⟨"You enter a forest.", ["Look", "Run", "Wait"], "dark forest", ["torch"]⟩

/-- A well-formed backend result for a second turn. -/
def ndNext : NarrativeData :=
  ⟨"You flee safely.", ["Hide", "Climb", "Shout"], "safe meadow", []⟩

/-- A parsed backend result whose `choices` list is too short. -/
def ndShort : NarrativeData := ⟨"You enter.", ["Look"], "forest", []⟩

/-- A store holding one session, for user `u1`. -/
def storeOne : Store := [("u1", ⟨["You enter a forest."], ["torch"]⟩)]

/-! ## Store lemmas -/

theorem string_data_append (a b : String) : (a ++ b).data = a.data ++ b.data :=
  rfl

theorem lookup_insert_self (s : Store) (u : String) (x : Session) :
    lookupSession (insertSession s u x) u = some x := by
  induction s with
  | nil => simp [insertSession, lookupSession]
  | cons kv rest ih =>
    obtain ⟨k, v⟩ := kv
    by_cases h : k = u <;> simp [insertSession, lookupSession, h, ih]

theorem lookup_insert_ne (s : Store) (u v : String) (x : Session)
    (h : v ≠ u) :
    lookupSession (insertSession s u x) v = lookupSession s v := by
  have huv : ¬(u = v) := fun hh => h hh.symm
  induction s with
  | nil => simp [insertSession, lookupSession, huv]
  | cons kv rest ih =>
    obtain ⟨k, w⟩ := kv
    by_cases hk : k = u
    · subst hk
      simp [insertSession, lookupSession, huv]
    · simp [insertSession, lookupSession, hk, ih]

theorem lookup_erase_self (s : Store) (u : String) :
    lookupSession (eraseSession s u) u = none := by
  induction s with
  | nil => simp [eraseSession, lookupSession]
  | cons kv rest ih =>
    obtain ⟨k, v⟩ := kv
    by_cases h : k = u <;>
      simp [eraseSession, List.filter, h, lookupSession] <;>
      simpa [eraseSession] using ih

/-! ## Formatting lemmas -/

theorem pyIndex_eq_ok (xs : List String) (i : Nat) (x : String)
    (h : xs[i]? = some x) : pyIndex xs i = Except.ok x := by
  simp [pyIndex, h]

theorem pyIndex_eq_err (xs : List String) (i : Nat) (h : xs.length ≤ i) :
    pyIndex xs i = Except.error CallError.indexError := by
  simp [pyIndex, List.getElem?_eq_none h]

theorem startResponseStr_short (nd : NarrativeData) (url : String)
    (h : nd.choices.length < 3) :
    startResponseStr nd url = Except.error CallError.indexError := by
  have h2 : pyIndex nd.choices 2 = Except.error CallError.indexError :=
    pyIndex_eq_err _ _ (by omega)
  by_cases h1 : nd.choices.length ≤ 1
  · have he := pyIndex_eq_err nd.choices 1 h1
    simp [startResponseStr, he, h2]
  · have hlt : 1 < nd.choices.length := by omega
    have ho := pyIndex_eq_ok nd.choices 1 nd.choices[1]
      (List.getElem?_eq_getElem hlt)
    simp [startResponseStr, ho, h2]

theorem choiceResponseStr_short (nd : NarrativeData) (url : String)
    (h : nd.choices.length < 3) :
    choiceResponseStr nd url = Except.error CallError.indexError := by
  have h2 : pyIndex nd.choices 2 = Except.error CallError.indexError :=
    pyIndex_eq_err _ _ (by omega)
  by_cases h1 : nd.choices.length ≤ 1
  · have he := pyIndex_eq_err nd.choices 1 h1
    simp [choiceResponseStr, he, h2]
  · have hlt : 1 < nd.choices.length := by omega
    have ho := pyIndex_eq_ok nd.choices 1 nd.choices[1]
      (List.getElem?_eq_getElem hlt)
    simp [choiceResponseStr, ho, h2]

theorem startResponseStr_ok (nd : NarrativeData) (url : String)
    (c0 c1 c2 : String) (rest : List String)
    (hc : nd.choices = c0 :: c1 :: c2 :: rest) :
    startResponseStr nd url =
      Except.ok ("A new adventure begins!\n\n" ++ nd.narrative ++
        "\n\nImage: " ++ url ++
        "\n\nWhat do you do?\n1. " ++ pyReprStrList nd.choices ++
        "\n2. " ++ c1 ++ "\n3. " ++ c2 ++
        "\n4. Or, type your own action...") := by
  have h1 : pyIndex nd.choices 1 = Except.ok c1 := by
    rw [hc]; simp [pyIndex]
  have h2 : pyIndex nd.choices 2 = Except.ok c2 := by
    rw [hc]; simp [pyIndex]
  simp [startResponseStr, h1, h2]

theorem choiceResponseStr_ok (nd : NarrativeData) (url : String)
    (c0 c1 c2 : String) (rest : List String)
    (hc : nd.choices = c0 :: c1 :: c2 :: rest) :
    choiceResponseStr nd url =
      Except.ok (nd.narrative ++
        "\n\nImage: " ++ url ++
        "\n\nWhat do you do?\n1. " ++ pyReprStrList nd.choices ++
        "\n2. " ++ c1 ++ "\n3. " ++ c2 ++
        "\n4. Or, type your own action...") := by
  have h1 : pyIndex nd.choices 1 = Except.ok c1 := by
    rw [hc]; simp [pyIndex]
  have h2 : pyIndex nd.choices 2 = Except.ok c2 := by
    rw [hc]; simp [pyIndex]
  simp [choiceResponseStr, h1, h2]

/-! ## Length facts about the Python list repr -/

theorem pyEscapeChar_length_pos (q ch : Char) :
    0 < (pyEscapeChar q ch).length := by
  unfold pyEscapeChar
  split_ifs <;> simp

theorem flatten_escape_length (q : Char) (l : List Char) :
    l.length ≤ ((l.map (pyEscapeChar q)).flatten).length := by
  induction l with
  | nil => simp
  | cons c cs ih =>
    simp only [List.map_cons, List.flatten_cons, List.length_append,
      List.length_cons]
    have := pyEscapeChar_length_pos q c
    omega

theorem pyReprStr_data_length (s : String) :
    s.data.length + 2 ≤ (pyReprStr s).data.length := by
  have key : ∀ q : Char, s.data.length + 2 ≤
      (String.mk ([q] ++ (s.data.map (pyEscapeChar q)).flatten ++ [q])).data.length := by
    intro q
    have hf := flatten_escape_length q s.data
    show s.data.length + 2 ≤
      ([q] ++ (s.data.map (pyEscapeChar q)).flatten ++ [q]).length
    have h2 : ([q] ++ (s.data.map (pyEscapeChar q)).flatten ++ [q]).length
        = 1 + ((s.data.map (pyEscapeChar q)).flatten).length + 1 := by
      simp
      omega
    omega
  exact key _

theorem joinComma_head_le (x : String) (xs : List String) :
    x.data.length ≤ (joinComma (x :: xs)).data.length := by
  cases xs with
  | nil => simp [joinComma]
  | cons y ys =>
    simp [joinComma, string_data_append]

theorem pyReprStrList_ne_head (c0 : String) (rest : List String) :
    pyReprStrList (c0 :: rest) ≠ c0 := by
  intro h
  have hlen : (pyReprStrList (c0 :: rest)).data.length = c0.data.length := by
    rw [h]
  have h1 : (pyReprStr c0).data.length ≤
      (joinComma ((c0 :: rest).map pyReprStr)).data.length := by
    simpa using joinComma_head_le (pyReprStr c0) (rest.map pyReprStr)
  have h2 := pyReprStr_data_length c0
  have h3 : (pyReprStrList (c0 :: rest)).data.length =
      1 + (joinComma ((c0 :: rest).map pyReprStr)).data.length + 1 := by
    simp [pyReprStrList, string_data_append]
    omega
  omega

/-! ## Claim theorems -/

/-- C1 (amended): a failure of the backend call or of JSON parsing leaves
the Session Store unmodified; but a failure after the parsed response,
while formatting (because `choices` is too short), happens after the
session write, so on such a failing call `start` has already created the
session and `advance` has already appended both entries to `story_log`
and replaced `inventory`. -/
theorem claimC1 (store : Store) (u c : String) (nd : NarrativeData)
    (sess : Session) (hshort : nd.choices.length < 3) :
    ((start_adventure store u none).store = store) ∧
    ((make_choice store u c none).store = store) ∧
    (lookupSession store u = none →
      (start_adventure store u (some nd)).store =
        insertSession store u ⟨[nd.narrative], nd.new_inventory⟩ ∧
      (start_adventure store u (some nd)).reply =
        Except.error CallError.indexError) ∧
    (lookupSession store u = some sess →
      (make_choice store u c (some nd)).store =
        insertSession store u
          ⟨sess.story_log ++ ["Player chose: " ++ c, nd.narrative],
           nd.new_inventory⟩ ∧
      (make_choice store u c (some nd)).reply =
        Except.error CallError.indexError) := by
  refine ⟨?_, ?_, ?_, ?_⟩
  · cases h : lookupSession store u with
    | none => simp [start_adventure, h]
    | some s =>
      cases hl : pyLast s.story_log <;> simp [start_adventure, h, hl]
  · cases h : lookupSession store u with
    | none => simp [make_choice, h]
    | some s => simp [make_choice, h]
  · intro h
    have hf := startResponseStr_short nd (get_scene_image nd.image_prompt) hshort
    simp [start_adventure, h, hf]
  · intro h
    have hf := choiceResponseStr_short nd (get_scene_image nd.image_prompt) hshort
    simp [make_choice, h, hf]

/-- C2 (amended): for every parsed backend result whose `choices` has
fewer than 3 entries, `start` for a user with NO existing session and
`advance` for a user with an existing session both fail with the
out-of-range index error raised when formatting the 2nd/3rd choice,
rather than returning a response. -/
theorem claimC2 (store : Store) (u c : String) (nd : NarrativeData)
    (hshort : nd.choices.length < 3) :
    (lookupSession store u = none →
      (start_adventure store u (some nd)).reply =
        Except.error CallError.indexError) ∧
    (∀ sess, lookupSession store u = some sess →
      (make_choice store u c (some nd)).reply =
        Except.error CallError.indexError) := by
  constructor
  · intro h
    have hf := startResponseStr_short nd (get_scene_image nd.image_prompt) hshort
    simp [start_adventure, h, hf]
  · intro sess h
    have hf := choiceResponseStr_short nd (get_scene_image nd.image_prompt) hshort
    simp [make_choice, h, hf]

/-- C3: a successful `advance` appends exactly two entries to the
session's `story_log` — the player-action record for the choice, then
the backend narrative — and replaces `inventory` with the backend's
`new_inventory`. -/
theorem claimC3 (store : Store) (u choice : String) (sess : Session)
    (nd : NarrativeData) (hs : lookupSession store u = some sess)
    (_hok : replyOk (make_choice store u choice (some nd)).reply = true) :
    (make_choice store u choice (some nd)).store =
      insertSession store u
        ⟨sess.story_log ++ ["Player chose: " ++ choice, nd.narrative],
         nd.new_inventory⟩ ∧
    lookupSession (make_choice store u choice (some nd)).store u =
      some ⟨sess.story_log ++ ["Player chose: " ++ choice, nd.narrative],
            nd.new_inventory⟩ := by
  have hst : (make_choice store u choice (some nd)).store =
      insertSession store u
        ⟨sess.story_log ++ ["Player chose: " ++ choice, nd.narrative],
         nd.new_inventory⟩ := by
    cases hcr : choiceResponseStr nd (get_scene_image nd.image_prompt) <;>
      simp [make_choice, hs, hcr]
  refine ⟨hst, ?_⟩
  rw [hst]
  exact lookup_insert_self store u _

/-- C4: a successful `start` on a user with no session creates exactly
one session for that user, with `story_log = [narrative]` and
`inventory = new_inventory`; every other user's entry is untouched. -/
theorem claimC4 (store : Store) (u : String) (nd : NarrativeData)
    (hs : lookupSession store u = none)
    (_hok : replyOk (start_adventure store u (some nd)).reply = true) :
    lookupSession (start_adventure store u (some nd)).store u =
      some ⟨[nd.narrative], nd.new_inventory⟩ ∧
    ∀ v, v ≠ u →
      lookupSession (start_adventure store u (some nd)).store v =
        lookupSession store v := by
  have hst : (start_adventure store u (some nd)).store =
      insertSession store u ⟨[nd.narrative], nd.new_inventory⟩ := by
    cases hcr : startResponseStr nd (get_scene_image nd.image_prompt) <;>
      simp [start_adventure, hs, hcr]
  rw [hst]
  exact ⟨lookup_insert_self store u _,
    fun v hv => lookup_insert_ne store u v _ hv⟩

/-- C5: `start` on a user with an existing (nonempty-log) session leaves
the store unchanged, makes no backend call, and returns a message
embedding the most recent `story_log` entry verbatim. -/
theorem claimC5 (store : Store) (u : String) (sess : Session)
    (backend : Option NarrativeData)
    (hs : lookupSession store u = some sess)
    (hne : sess.story_log ≠ []) :
    (start_adventure store u backend).store = store ∧
    (start_adventure store u backend).backendRequest = none ∧
    ∃ last, sess.story_log.getLast? = some last ∧
      (start_adventure store u backend).reply =
        Except.ok
          ("You are already in an adventure! Your last update was: "
            ++ last) := by
  have hlast := List.getLast?_eq_getLast sess.story_log hne
  refine ⟨?_, ?_, sess.story_log.getLast hne, hlast, ?_⟩ <;>
    simp [start_adventure, hs, pyLast, hlast]

/-- C6: with no session for the user, `make_choice` and `show_status`
return the exact same no-session message and leave the store
untouched. -/
theorem claimC6 (store : Store) (u c : String)
    (backend : Option NarrativeData)
    (hs : lookupSession store u = none) :
    (make_choice store u c backend).store = store ∧
    (show_status store u).1 = store ∧
    (make_choice store u c backend).reply =
      Except.ok ((show_status store u).2) ∧
    (show_status store u).2 =
      "You haven" ++ apostr ++ "t started an adventure yet! Use the "
        ++ apostr ++ "start_adventure" ++ apostr ++ " tool first." := by
  refine ⟨?_, ?_, ?_, ?_⟩ <;> simp [make_choice, show_status, hs]

theorem reset_none (s : Store) (u : String)
    (h : lookupSession s u = none) :
    reset_adventure s u =
      (s, "You do not have an active adventure to reset.") := by
  simp [reset_adventure, h]

theorem reset_some (s : Store) (u : String)
    (h : (lookupSession s u).isSome) :
    reset_adventure s u =
      (eraseSession s u,
       "Your adventure has been reset. You can now start a new one by using the "
         ++ apostr ++ "start_adventure" ++ apostr ++ " tool.") := by
  simp [reset_adventure, h]

/-- C7: `reset` on an existing session removes it (so `status` then
reports no session) and returns the confirmation; `reset` with no session
leaves the store unchanged and returns the distinct no-op message; and a
second `reset` in a row always returns the no-op message and leaves the
store as the first call left it. -/
theorem claimC7 (store : Store) (u : String) :
    (∀ sess, lookupSession store u = some sess →
      lookupSession (reset_adventure store u).1 u = none ∧
      (show_status (reset_adventure store u).1 u).2 =
        "You haven" ++ apostr ++ "t started an adventure yet! Use the "
          ++ apostr ++ "start_adventure" ++ apostr ++ " tool first." ∧
      (reset_adventure store u).2 =
        "Your adventure has been reset. You can now start a new one by using the "
          ++ apostr ++ "start_adventure" ++ apostr ++ " tool." ∧
      (reset_adventure store u).2 ≠
        (reset_adventure (reset_adventure store u).1 u).2) ∧
    (lookupSession store u = none →
      (reset_adventure store u).1 = store ∧
      (reset_adventure store u).2 =
        "You do not have an active adventure to reset.") ∧
    ((reset_adventure (reset_adventure store u).1 u).1 =
        (reset_adventure store u).1 ∧
      (reset_adventure (reset_adventure store u).1 u).2 =
        "You do not have an active adventure to reset.") := by
  refine ⟨?_, ?_, ?_⟩
  · intro sess hsess
    have hsome : (lookupSession store u).isSome := by rw [hsess]; rfl
    have h12 := reset_some store u hsome
    have h3 : lookupSession (reset_adventure store u).1 u = none := by
      rw [h12]; exact lookup_erase_self store u
    refine ⟨h3, ?_, ?_, ?_⟩
    · simp [show_status, h3]
    · rw [h12]
    · rw [reset_none ((reset_adventure store u).1) u h3, h12]
      show ("Your adventure has been reset. You can now start a new one by using the "
          ++ apostr ++ "start_adventure" ++ apostr ++ " tool.")
        ≠ "You do not have an active adventure to reset."
      decide
  · intro h
    constructor <;> simp [reset_adventure, h]
  · have hnone1 : lookupSession (reset_adventure store u).1 u = none := by
      by_cases h : (lookupSession store u).isSome
      · rw [reset_some store u h]
        exact lookup_erase_self store u
      · have h0 : lookupSession store u = none := by
          cases hx : lookupSession store u with
          | none => rfl
          | some s => rw [hx] at h; simp at h
        rw [reset_none store u h0]
        exact h0
    rw [reset_none ((reset_adventure store u).1) u hnone1]
    exact ⟨rfl, rfl⟩

/-- C8: scene image URL generation is a pure function of the prompt, and
for the prompt "a dark cave!" the query portion of the URL contains no
literal space and no literal exclamation mark. -/
theorem claimC8 :
    (∀ p q : String, p = q → get_scene_image p = get_scene_image q) ∧
    (∀ ch : Char,
      ch ∈ (queryPortion (get_scene_image "a dark cave!")).data →
      ch ≠ ' ' ∧ ch ≠ '!') := by
  refine ⟨fun p q h => by rw [h], ?_⟩
  decide

/-- C9 (amended): `start` on a user with no session sends the backend an
empty prior log together with the synthetic initial player action
"Start a new fantasy adventure for me in a mysterious, ancient
forest.". -/
theorem claimC9 (store : Store) (u : String)
    (backend : Option NarrativeData)
    (hs : lookupSession store u = none) :
    (start_adventure store u backend).backendRequest =
      some ([], initial_prompt) ∧
    initial_prompt =
      "Start a new fantasy adventure for me in a mysterious, ancient forest." := by
  refine ⟨?_, rfl⟩
  cases backend with
  | none => simp [start_adventure, hs]
  | some nd =>
    cases hcr : startResponseStr nd (get_scene_image nd.image_prompt) <;>
      simp [start_adventure, hs, hcr]

/-- C10: with at least three choices, the formatted response of both
`start` and `advance` renders the line numbered 1 with the Python string
representation of the whole `choices` list, the lines numbered 2 and 3
with the second and third choice individually, and that first line is
never the first choice itself. -/
theorem claimC10 (store : Store) (u c : String) (nd : NarrativeData)
    (c0 c1 c2 : String) (rest : List String)
    (hc : nd.choices = c0 :: c1 :: c2 :: rest) :
    (lookupSession store u = none →
      (start_adventure store u (some nd)).reply =
        Except.ok ("A new adventure begins!\n\n" ++ nd.narrative ++
          "\n\nImage: " ++ get_scene_image nd.image_prompt ++
          "\n\nWhat do you do?\n1. " ++ pyReprStrList nd.choices ++
          "\n2. " ++ c1 ++ "\n3. " ++ c2 ++
          "\n4. Or, type your own action...")) ∧
    (∀ sess, lookupSession store u = some sess →
      (make_choice store u c (some nd)).reply =
        Except.ok (nd.narrative ++
          "\n\nImage: " ++ get_scene_image nd.image_prompt ++
          "\n\nWhat do you do?\n1. " ++ pyReprStrList nd.choices ++
          "\n2. " ++ c1 ++ "\n3. " ++ c2 ++
          "\n4. Or, type your own action...")) ∧
    pyReprStrList nd.choices ≠ c0 := by
  refine ⟨?_, ?_, ?_⟩
  · intro h
    have hok := startResponseStr_ok nd (get_scene_image nd.image_prompt)
      c0 c1 c2 rest hc
    simp [start_adventure, h, hok]
  · intro sess h
    have hok := choiceResponseStr_ok nd (get_scene_image nd.image_prompt)
      c0 c1 c2 rest hc
    simp [make_choice, h, hok]
  · rw [hc]
    exact pyReprStrList_ne_head c0 (c1 :: c2 :: rest)

/-! ## Counterexamples and witnesses -/

/-- C1 counterexample: with backend result `ndShort` (a single choice)
the start call fails with an index error, yet the session has been
created — the Session Store is not left unmodified by the failing
call. -/
theorem claimC1_counterexample :
    (start_adventure [] "u1" (some ndShort)).reply =
      Except.error CallError.indexError ∧
    lookupSession (start_adventure [] "u1" (some ndShort)).store "u1" =
      some ⟨["You enter."], []⟩ ∧
    (start_adventure [] "u1" (some ndShort)).store ≠ [] := by
  refine ⟨rfl, rfl, ?_⟩
  decide

/-- C1 witness instance. -/
theorem claimC1_witness :
    (start_adventure [] "u1" (some ndShort)).store =
      insertSession [] "u1" ⟨[ndShort.narrative], ndShort.new_inventory⟩ ∧
    (start_adventure [] "u1" (some ndShort)).reply =
      Except.error CallError.indexError :=
  (claimC1 [] "u1" "x" ndShort ⟨["a"], []⟩ (by decide)).2.2.1 rfl

/-- C2 counterexample: for a user WITH an existing session and a backend
result whose `choices` is too short, `start` does not fail with an index
error — it returns the duplicate-start peek response. -/
theorem claimC2_counterexample :
    (start_adventure storeOne "u1" (some ndShort)).reply =
      Except.ok
        "You are already in an adventure! Your last update was: You enter a forest." ∧
    replyOk (start_adventure storeOne "u1" (some ndShort)).reply = true :=
  ⟨rfl, rfl⟩

/-- C2 witness instance. -/
theorem claimC2_witness :
    (start_adventure [] "u1" (some ndShort)).reply =
      Except.error CallError.indexError ∧
    (make_choice storeOne "u1" "Run" (some ndShort)).reply =
      Except.error CallError.indexError :=
  ⟨(claimC2 [] "u1" "Run" ndShort (by decide)).1 rfl,
   (claimC2 storeOne "u1" "Run" ndShort (by decide)).2
     ⟨["You enter a forest."], ["torch"]⟩ (by decide)⟩

/-- C3 witness instance. -/
theorem claimC3_witness :
    (make_choice storeOne "u1" "Run" (some ndNext)).store =
      insertSession storeOne "u1"
        ⟨["You enter a forest."] ++
           ["Player chose: " ++ "Run", ndNext.narrative],
         ndNext.new_inventory⟩ ∧
    lookupSession (make_choice storeOne "u1" "Run" (some ndNext)).store "u1" =
      some ⟨["You enter a forest."] ++
              ["Player chose: " ++ "Run", ndNext.narrative],
            ndNext.new_inventory⟩ :=
  claimC3 storeOne "u1" "Run" ⟨["You enter a forest."], ["torch"]⟩ ndNext
    (by decide) (by decide)

/-- C4 witness instance. -/
theorem claimC4_witness :
    lookupSession (start_adventure [] "u1" (some ndGood)).store "u1" =
      some ⟨[ndGood.narrative], ndGood.new_inventory⟩ ∧
    lookupSession (start_adventure [] "u1" (some ndGood)).store "u2" =
      lookupSession [] "u2" :=
  ⟨(claimC4 [] "u1" ndGood rfl (by decide)).1,
   (claimC4 [] "u1" ndGood rfl (by decide)).2 "u2" (by decide)⟩

/-- C5 witness instance. -/
theorem claimC5_witness :
    (start_adventure storeOne "u1" none).store = storeOne ∧
    (start_adventure storeOne "u1" none).backendRequest = none ∧
    ∃ last, (["You enter a forest."] : List String).getLast? = some last ∧
      (start_adventure storeOne "u1" none).reply =
        Except.ok
          ("You are already in an adventure! Your last update was: "
            ++ last) :=
  claimC5 storeOne "u1" ⟨["You enter a forest."], ["torch"]⟩ none
    (by decide) (by decide)

/-- C6 witness instance. -/
theorem claimC6_witness :
    (make_choice [] "u2" "x" none).store = [] ∧
    (show_status [] "u2").1 = [] ∧
    (make_choice [] "u2" "x" none).reply =
      Except.ok ((show_status [] "u2").2) ∧
    (show_status [] "u2").2 =
      "You haven" ++ apostr ++ "t started an adventure yet! Use the "
        ++ apostr ++ "start_adventure" ++ apostr ++ " tool first." :=
  claimC6 [] "u2" "x" none rfl

/-- C7 witness instance. -/
theorem claimC7_witness :
    lookupSession (reset_adventure storeOne "u1").1 "u1" = none ∧
    (reset_adventure [] "u1").1 = ([] : Store) ∧
    (reset_adventure [] "u1").2 =
      "You do not have an active adventure to reset." :=
  ⟨((claimC7 storeOne "u1").1 ⟨["You enter a forest."], ["torch"]⟩
      (by decide)).1,
   ((claimC7 [] "u1").2.1 rfl).1,
   ((claimC7 [] "u1").2.1 rfl).2⟩

/-- C8 witness instance. -/
theorem claimC8_witness :
    get_scene_image "dark forest" = get_scene_image "dark forest" ∧
    ('t' ≠ ' ' ∧ 't' ≠ '!') :=
  ⟨claimC8.1 "dark forest" "dark forest" rfl, claimC8.2 't' (by decide)⟩

/-- C9 counterexample: the seed action actually sent on a fresh start is
the literal of the source, not the string the claim quotes. -/
theorem claimC9_counterexample :
    (start_adventure [] "u9" (some ndGood)).backendRequest =
      some ([],
        "Start a new fantasy adventure for me in a mysterious, ancient forest.") ∧
    (start_adventure [] "u9" (some ndGood)).backendRequest ≠
      some ([], "begin a new adventure in a mysterious forest") := by
  refine ⟨rfl, ?_⟩
  decide

/-- C9 witness instance. -/
theorem claimC9_witness :
    (start_adventure [] "u3" none).backendRequest =
      some ([], initial_prompt) ∧
    initial_prompt =
      "Start a new fantasy adventure for me in a mysterious, ancient forest." :=
  claimC9 [] "u3" none rfl

/-- C10 witness instance. -/
theorem claimC10_witness :
    (start_adventure [] "u1" (some ndGood)).reply =
      Except.ok ("A new adventure begins!\n\n" ++ ndGood.narrative ++
        "\n\nImage: " ++ get_scene_image ndGood.image_prompt ++
        "\n\nWhat do you do?\n1. " ++ pyReprStrList ndGood.choices ++
        "\n2. " ++ "Run" ++ "\n3. " ++ "Wait" ++
        "\n4. Or, type your own action...") ∧
    pyReprStrList ndGood.choices ≠ "Look" :=
  ⟨(claimC10 [] "u1" "x" ndGood "Look" "Run" "Wait" [] rfl).1 rfl,
   (claimC10 [] "u1" "x" ndGood "Look" "Run" "Wait" [] rfl).2.2⟩

end AdventureEngine
